import Mathlib

/-!
Verification of the ViewSB frontend supervisor and runtime
(`src/viewsb/frontend.py`), shallowly embedded in Lean 4.

The embedding models:
* packets as Python values carried through the queue (`PyValue`), with
  Python truthiness, since `handle_communications` tests `if not packet`;
* the inter-process queue as the list of currently enqueued items, with
  `Queue.get` following `multiprocessing.Queue.get(block, timeout)`
  semantics for a queue with no concurrent producer during the call
  (the result also records how long the call waited before signalling
  `queue.Empty`);
* the supervisor `ViewSBFrontendProcess` as a state record: queue
  contents, termination event, the open/closed state of the single
  duplicated stdin handle created by `_capture_stdin` in `__init__`,
  and the spawned subordinate process (if any);
* the frontend runtime loop `ViewSBFrontend.run` over the sequence of
  values successively observed for `termination_event.is_set()` at each
  loop head, counting `handle_communications` and `handle_termination`
  calls.

Python exceptions are modelled with `Except`; a raising method returns
the exception together with the post-mutation state, since Python
mutations performed before the raise persist.
-/

/-- A Python value travelling through the channel, as far as the frontend
code can distinguish them: `None`, booleans, integers, strings, or any
other object (identified by an id, always truthy). -/
inductive PyValue where
  | none
  | bool (b : Bool)
  | int (n : Int)
  | str (s : String)
  | obj (id : Nat)
deriving DecidableEq

/-- Python truthiness (`bool(v)`), which `handle_communications` applies
to each fetched value via `if not packet`. -/
def PyValue.truthy : PyValue → Bool
  | PyValue.none => false
  | PyValue.bool b => b
  | PyValue.int n => n != 0
  | PyValue.str s => s != ""
  | PyValue.obj _ => true

/-- Outcome of `multiprocessing.Queue.get` on a queue with no concurrent
producer: an item, the `queue.Empty` exception raised after waiting
`waited` seconds, or an indefinite block (blocking get with no timeout
on an empty queue). -/
inductive GetResult where
  | item (packet : PyValue)
  | empty (waited : Rat)
  | blocked
deriving DecidableEq

/-- `multiprocessing.Queue.get(block, timeout)` on the queue holding `q`
(head = oldest), assuming nothing is enqueued during the call. A present
item is returned at once. On an empty queue: non-blocking mode raises
`queue.Empty` immediately; blocking mode with no timeout blocks; blocking
mode with timeout `t` raises `queue.Empty` after waiting `max t 0`
seconds. -/
def Queue.get (q : List PyValue) (block : Bool) (timeout : Option Rat) :
    GetResult × List PyValue :=
  match q with
  | packet :: rest => (GetResult.item packet, rest)
  | [] =>
    if block then
      match timeout with
      | Option.none => (GetResult.blocked, [])
      | Option.some t => (GetResult.empty (max t 0), [])
    else
      (GetResult.empty 0, [])

/-- `ViewSBFrontend.PACKET_READ_TIMEOUT = 0.01` (seconds). -/
def ViewSBFrontend.PACKET_READ_TIMEOUT : Rat := 1 / 100

/-- `ViewSBFrontend.read_packet(blocking, timeout)`:
`return self.input_queue.get(blocking, timeout=timeout)`. -/
def ViewSBFrontend.read_packet (q : List PyValue) (blocking : Bool)
    (timeout : Option Rat) : GetResult × List PyValue :=
  Queue.get q blocking timeout

/-- `ViewSBFrontend.fetch_packet_from_analyzer()`: calls
`read_packet(timeout=PACKET_READ_TIMEOUT, blocking=False)` and converts a
raised `queue.Empty` into `None`. -/
def ViewSBFrontend.fetch_packet_from_analyzer (q : List PyValue) :
    PyValue × List PyValue :=
  match ViewSBFrontend.read_packet q false
      (Option.some ViewSBFrontend.PACKET_READ_TIMEOUT) with
  | (GetResult.item packet, q') => (packet, q')
  | (_, q') => (PyValue.none, q')

/-- The wall-clock time `fetch_packet_from_analyzer` spends waiting inside
its `read_packet` call before returning, per `Queue.get`'s semantics
(0 whenever an item is returned at once). -/
def ViewSBFrontend.fetch_wait (q : List PyValue) : Rat :=
  match ViewSBFrontend.read_packet q false
      (Option.some ViewSBFrontend.PACKET_READ_TIMEOUT) with
  | (GetResult.empty waited, _) => waited
  | _ => 0

/-- `ViewSBFrontend.handle_communications()`: starting from `packet = True`,
repeatedly fetch a packet; `if not packet: break`; otherwise
`handle_incoming_packet(packet)` and loop. Returns the list of packets
passed to `handle_incoming_packet`, in dispatch order, together with the
queue contents left when the loop breaks. -/
def ViewSBFrontend.handle_communications (q : List PyValue) :
    List PyValue × List PyValue :=
  match h : ViewSBFrontend.fetch_packet_from_analyzer q with
  | (packet, q') =>
    if ht : packet.truthy then
      let r := ViewSBFrontend.handle_communications q'
      (packet :: r.1, r.2)
    else
      ([], q')
termination_by q.length
decreasing_by
  cases q with
  | nil =>
    simp [ViewSBFrontend.fetch_packet_from_analyzer,
      ViewSBFrontend.read_packet, Queue.get] at h
    rw [← h.1] at ht
    simp [PyValue.truthy] at ht
  | cons a rest =>
    simp [ViewSBFrontend.fetch_packet_from_analyzer,
      ViewSBFrontend.read_packet, Queue.get] at h
    rw [h.2]
    simp

/-- `ViewSBFrontend.run()` over the successive values observed for
`termination_event.is_set()` at each `while` check: while the observation
is `false`, `handle_communications()` runs and the loop repeats; on the
first `true` observation the loop exits and `handle_termination()` runs.
Returns (number of `handle_communications` calls, number of
`handle_termination` calls); an exhausted observation list means the loop
is still running (no termination call yet). -/
def ViewSBFrontend.run : List Bool → Nat × Nat
  | [] => (0, 0)
  | flag :: later =>
    if flag then (0, 1)
    else
      let r := ViewSBFrontend.run later
      (r.1 + 1, r.2)

/-- A frontend implementation class, as the supervisor sees it: only its
`__name__` matters to this code (used to derive the process name). -/
structure FrontendClass where
  name : String
deriving DecidableEq

/-- The stored `frontend_arguments` tuple `(frontend_class,
frontend_arguments, input_queue, termination_event, stdin)` built by
`__init__`. The queue, event and stdin entries are references to the
supervisor's own primitives, so they are represented by the shared
supervisor state rather than duplicated here. -/
structure FrontendArgs where
  frontend_class : FrontendClass
  frontend_ctor_args : List PyValue
deriving DecidableEq

/-- The subordinate `multiprocessing.Process` spawned by `start()`:
its name, the argument tuple it was spawned with, whether the stdin
handle passed to it was still open at spawn time, and whether the
process has exited. -/
structure Proc where
  name : String
  args : FrontendArgs
  stdin_open_at_spawn : Bool
  exited : Bool
deriving DecidableEq

/-- Supervisor state for `ViewSBFrontendProcess`: the queue contents,
the termination event, the open/closed state of the one duplicated
stdin handle, how many times `_capture_stdin` duplicated stdin, the
stored argument tuple, and the spawned process (absent before the first
`start()`, when the `foreground_process` attribute does not exist). -/
structure ViewSBFrontendProcess where
  input_queue : List PyValue
  termination_event : Bool
  stdin_open : Bool
  stdin_dup_count : Nat
  frontend_arguments : FrontendArgs
  foreground_process : Option Proc
deriving DecidableEq

/-- `ViewSBFrontendProcess.__init__(frontend_class, *frontend_arguments)`:
fresh empty queue, cleared event, one call to `_capture_stdin` producing
the single open duplicated stdin handle, and the argument tuple. No
process is spawned yet. -/
def ViewSBFrontendProcess.init (frontend_class : FrontendClass)
    (frontend_ctor_args : List PyValue) : ViewSBFrontendProcess :=
  { input_queue := []
    termination_event := false
    stdin_open := true
    stdin_dup_count := 1
    frontend_arguments :=
      { frontend_class := frontend_class
        frontend_ctor_args := frontend_ctor_args }
    foreground_process := Option.none }

/-- `ViewSBFrontendProcess.start()`: clear the termination event, derive
the process name `"{} UI process".format(frontend_class.__name__)`, spawn
the subordinate with the stored argument tuple (recording the open state
of the shared stdin handle at spawn time), then close the local stdin
handle (`file.close()` is a no-op when the file is already closed). -/
def ViewSBFrontendProcess.start (s : ViewSBFrontendProcess) :
    ViewSBFrontendProcess :=
  let s1 : ViewSBFrontendProcess := { s with termination_event := false }
  let procName := s1.frontend_arguments.frontend_class.name ++ " UI process"
  let proc : Proc :=
    { name := procName
      args := s1.frontend_arguments
      stdin_open_at_spawn := s1.stdin_open
      exited := false }
  let s2 : ViewSBFrontendProcess :=
    { s1 with foreground_process := Option.some proc }
  { s2 with stdin_open := false }

/-- `ViewSBFrontendProcess.issue_packet(packet)`:
`self.input_queue.put(packet)` — append to the FIFO, unconditionally. -/
def ViewSBFrontendProcess.issue_packet (s : ViewSBFrontendProcess)
    (packet : PyValue) : ViewSBFrontendProcess :=
  { s with input_queue := s.input_queue ++ [packet] }

/-- A Python exception as far as this code can raise one. -/
inductive PyError where
  | attributeError
  | valueError
deriving DecidableEq

/-- `ViewSBFrontendProcess.stop()`: `self.termination_event.set()` and then
`self.foreground_process.join()`. Before any `start()` the
`foreground_process` attribute does not exist, so the attribute lookup
raises `AttributeError` — after the event was already set; the error
therefore carries the mutated state. Join blocks until the subordinate
has exited (a no-op if it already has). -/
def ViewSBFrontendProcess.stop (s : ViewSBFrontendProcess) :
    Except (PyError × ViewSBFrontendProcess) ViewSBFrontendProcess :=
  let s1 : ViewSBFrontendProcess := { s with termination_event := true }
  match s1.foreground_process with
  | Option.none => Except.error (PyError.attributeError, s1)
  | Option.some p =>
    Except.ok
      { s1 with foreground_process := Option.some { p with exited := true } }

/-- The supervisor state after a `stop()` call, whether or not the call
raised (Python mutations before a raise persist). -/
def ViewSBFrontendProcess.stopState (s : ViewSBFrontendProcess) :
    ViewSBFrontendProcess :=
  match s.stop with
  | Except.ok s' => s'
  | Except.error (_, s') => s'

/-- An I/O operation attempted on the supervisor's local duplicated stdin
file object: Python file objects raise `ValueError` ("I/O operation on
closed file") once closed. -/
def ViewSBFrontendProcess.stdin_read (s : ViewSBFrontendProcess) :
    Except PyError Unit :=
  if s.stdin_open then Except.ok () else Except.error PyError.valueError

/-- A supervisor-side operation, for stating flag invariants over whole
call sequences. -/
inductive SupOp where
  | start
  | issue (packet : PyValue)
  | stop
deriving DecidableEq

/-- The supervisor state after performing one operation (for `stop`, the
post-state whether or not it raised). -/
def ViewSBFrontendProcess.applyOp (s : ViewSBFrontendProcess) :
    SupOp → ViewSBFrontendProcess
  | SupOp.start => s.start
  | SupOp.issue p => s.issue_packet p
  | SupOp.stop => s.stopState

theorem handle_communications_nil :
    ViewSBFrontend.handle_communications [] = ([], []) := by
  rw [ViewSBFrontend.handle_communications]
  simp [ViewSBFrontend.fetch_packet_from_analyzer, ViewSBFrontend.read_packet,
    Queue.get, PyValue.truthy]

theorem handle_communications_cons (p : PyValue) (rest : List PyValue) :
    ViewSBFrontend.handle_communications (p :: rest) =
      if p.truthy then
        (p :: (ViewSBFrontend.handle_communications rest).1,
          (ViewSBFrontend.handle_communications rest).2)
      else ([], rest) := by
  rw [ViewSBFrontend.handle_communications]
  simp [ViewSBFrontend.fetch_packet_from_analyzer, ViewSBFrontend.read_packet,
    Queue.get]

theorem handle_communications_all_truthy (q : List PyValue)
    (h : ∀ p ∈ q, p.truthy = true) :
    ViewSBFrontend.handle_communications q = (q, []) := by
  induction q with
  | nil => exact handle_communications_nil
  | cons p rest ih =>
    rw [handle_communications_cons, h p (by simp),
      ih (fun x hx => h x (by simp [hx]))]
    simp

theorem issue_foldl (ps : List PyValue) : ∀ s : ViewSBFrontendProcess,
    (ps.foldl ViewSBFrontendProcess.issue_packet s).input_queue
      = s.input_queue ++ ps := by
  induction ps with
  | nil => simp
  | cons p rest ih =>
    intro s
    rw [List.foldl_cons, ih]
    simp [ViewSBFrontendProcess.issue_packet]

/-- Claim C1 (amended): for every sequence of calls `issue_packet(p1), …,
issue_packet(pn)` made before the consumer drains, where each `pi` is
truthy under Python truthiness, the queue holds exactly `p1, …, pn` and one
drain hands `handle_incoming_packet` exactly `p1, …, pn`, unmodified and
in that order. (A falsy packet would end the drain and be consumed
undispatched, which is what the counterexample exhibits.) -/
theorem claim_C1_amended_thm (fc : FrontendClass) (cargs : List PyValue)
    (ps : List PyValue) (h : ∀ p ∈ ps, p.truthy = true) :
    (ps.foldl ViewSBFrontendProcess.issue_packet
        (ViewSBFrontendProcess.init fc cargs)).input_queue = ps ∧
    (ViewSBFrontend.handle_communications
        (ps.foldl ViewSBFrontendProcess.issue_packet
          (ViewSBFrontendProcess.init fc cargs)).input_queue).1 = ps := by
  have hq : (ps.foldl ViewSBFrontendProcess.issue_packet
      (ViewSBFrontendProcess.init fc cargs)).input_queue = ps := by
    rw [issue_foldl]
    simp [ViewSBFrontendProcess.init]
  refine ⟨hq, ?_⟩
  rw [hq, handle_communications_all_truthy ps h]

/-- Claim C1, witness: two truthy packets issued in order are dispatched
exactly in that order by one drain. -/
theorem claim_C1_witness :
    (∀ p ∈ [PyValue.obj 1, PyValue.obj 2], p.truthy = true) ∧
    (([PyValue.obj 1, PyValue.obj 2].foldl ViewSBFrontendProcess.issue_packet
        (ViewSBFrontendProcess.init ⟨"TkFrontend"⟩ [])).input_queue
      = [PyValue.obj 1, PyValue.obj 2] ∧
    (ViewSBFrontend.handle_communications
        ([PyValue.obj 1, PyValue.obj 2].foldl
          ViewSBFrontendProcess.issue_packet
          (ViewSBFrontendProcess.init ⟨"TkFrontend"⟩ [])).input_queue).1
      = [PyValue.obj 1, PyValue.obj 2]) :=
  ⟨by decide,
    claim_C1_amended_thm ⟨"TkFrontend"⟩ [] [PyValue.obj 1, PyValue.obj 2]
      (by decide)⟩

/-- Claim C1, counterexample: issuing the single packet `0` (a falsy but
non-none Python value) before the drain, the hook does not receive
`[0]` — `handle_communications` consumes `0` and dispatches nothing,
so the claim as stated fails for this sequence. -/
theorem claim_C1_counterexample :
    (ViewSBFrontend.handle_communications
        ((ViewSBFrontendProcess.init ⟨"TkFrontend"⟩ []).issue_packet
          (PyValue.int 0)).input_queue).1 ≠ [PyValue.int 0] := by
  have hq : ((ViewSBFrontendProcess.init ⟨"TkFrontend"⟩ []).issue_packet
      (PyValue.int 0)).input_queue = [PyValue.int 0] := rfl
  rw [hq, handle_communications_cons]
  simp [PyValue.truthy]

/-- Claim C2 (amended): when every queued item is truthy, one call to
`handle_communications` dispatches all of them in order and leaves the
queue empty (for a channel holding truthy `P1, P2, P3` it dispatches
`P1, P2, P3` then returns); and whenever a fetch yields a falsy value
(`none` from an empty channel, or a falsy packet, which is consumed), the
call dispatches nothing further and returns at once. -/
theorem claim_C2_amended_thm (q : List PyValue) (h : ∀ p ∈ q, p.truthy = true) :
    ViewSBFrontend.handle_communications q = (q, []) ∧
    ∀ q' : List PyValue,
      (ViewSBFrontend.fetch_packet_from_analyzer q').1.truthy = false →
      ViewSBFrontend.handle_communications q' =
        ([], (ViewSBFrontend.fetch_packet_from_analyzer q').2) := by
  refine ⟨handle_communications_all_truthy q h, ?_⟩
  intro q' hf
  cases q' with
  | nil =>
    rw [handle_communications_nil]
    simp [ViewSBFrontend.fetch_packet_from_analyzer,
      ViewSBFrontend.read_packet, Queue.get]
  | cons p rest =>
    have hp : p.truthy = false := by
      simpa [ViewSBFrontend.fetch_packet_from_analyzer,
        ViewSBFrontend.read_packet, Queue.get] using hf
    rw [handle_communications_cons, hp]
    simp [ViewSBFrontend.fetch_packet_from_analyzer,
      ViewSBFrontend.read_packet, Queue.get]

/-- Claim C2, witness: a channel holding three truthy items `P1, P2, P3`
is drained to `P1, P2, P3` in order by one call, and a fetch yielding a
falsy value ends the call. -/
theorem claim_C2_witness :
    (∀ p ∈ [PyValue.obj 1, PyValue.obj 2, PyValue.obj 3], p.truthy = true) ∧
    (ViewSBFrontend.handle_communications
        [PyValue.obj 1, PyValue.obj 2, PyValue.obj 3]
      = ([PyValue.obj 1, PyValue.obj 2, PyValue.obj 3], []) ∧
    ∀ q' : List PyValue,
      (ViewSBFrontend.fetch_packet_from_analyzer q').1.truthy = false →
      ViewSBFrontend.handle_communications q' =
        ([], (ViewSBFrontend.fetch_packet_from_analyzer q').2)) :=
  ⟨by decide,
    claim_C2_amended_thm [PyValue.obj 1, PyValue.obj 2, PyValue.obj 3]
      (by decide)⟩

/-- Claim C2, counterexample: a channel holding `P1 = 0, P2, P3` (the
first falsy but non-none) is not drained to `[P1, P2, P3]` by one call —
the code dispatches nothing, refuting the claim as stated for this
channel content. -/
theorem claim_C2_counterexample :
    (ViewSBFrontend.handle_communications
        [PyValue.int 0, PyValue.obj 1, PyValue.obj 2]).1
      ≠ [PyValue.int 0, PyValue.obj 1, PyValue.obj 2] := by
  rw [handle_communications_cons]
  simp [PyValue.truthy]

/-- Claim C3: at the failing input (an empty channel),
`fetch_packet_from_analyzer` swallows `queue.Empty` and returns the
none-value — but it waits 0 seconds, not the 10 ms
`PACKET_READ_TIMEOUT`: the call passes `blocking=False`, under which
`Queue.get` ignores the supplied timeout, contradicting the function's
own docstring ("Blocks for a short period if no packets are
available"). -/
theorem claim_C3_fetch_no_wait :
    ViewSBFrontend.fetch_wait [] = 0 ∧
    ViewSBFrontend.fetch_packet_from_analyzer [] = (PyValue.none, []) ∧
    ViewSBFrontend.PACKET_READ_TIMEOUT = 1 / 100 ∧
    ViewSBFrontend.fetch_wait [] ≠ ViewSBFrontend.PACKET_READ_TIMEOUT :=
  ⟨by decide, by decide, rfl, by
    have h1 : ViewSBFrontend.fetch_wait [] = 0 := rfl
    rw [h1]
    show (0 : Rat) ≠ 1 / 100
    norm_num⟩

theorem run_term_le_one (obs : List Bool) : (ViewSBFrontend.run obs).2 ≤ 1 := by
  induction obs with
  | nil => simp [ViewSBFrontend.run]
  | cons b rest ih => cases b <;> simp [ViewSBFrontend.run, ih]

/-- Claim C4: over any sequence of flag observations containing a set
observation, `run` invokes `handle_termination` exactly once, calls
`handle_communications` once per clear observation before the first set
observation, and never (on any observation sequence) invokes the
termination hook more than once. -/
theorem claim_C4_run_thm (obs : List Bool) (h : true ∈ obs) :
    (ViewSBFrontend.run obs).2 = 1 ∧
    (ViewSBFrontend.run obs).1 = (obs.takeWhile (fun b => !b)).length ∧
    ∀ obs' : List Bool, (ViewSBFrontend.run obs').2 ≤ 1 := by
  refine ⟨?_, ?_, fun obs' => run_term_le_one obs'⟩
  · induction obs with
    | nil => simp at h
    | cons b rest ih =>
      cases b with
      | true => simp [ViewSBFrontend.run]
      | false =>
        have hrest : true ∈ rest := by simpa using h
        simpa [ViewSBFrontend.run] using ih hrest
  · induction obs with
    | nil => simp at h
    | cons b rest ih =>
      cases b with
      | true => simp [ViewSBFrontend.run]
      | false =>
        have hrest : true ∈ rest := by simpa using h
        simpa [ViewSBFrontend.run] using ih hrest

/-- Claim C4, witness: with the flag observed clear once and then set,
the loop body runs once, the termination hook exactly once. -/
theorem claim_C4_witness :
    true ∈ [false, true] ∧
    ((ViewSBFrontend.run [false, true]).2 = 1 ∧
    (ViewSBFrontend.run [false, true]).1
      = ([false, true].takeWhile (fun b => !b)).length ∧
    ∀ obs' : List Bool, (ViewSBFrontend.run obs').2 ≤ 1) :=
  ⟨by decide, claim_C4_run_thm [false, true] (by decide)⟩

/-- Claim C5: on a supervisor whose subordinate exists, `stop()` sets the
termination flag and joins — afterwards the subordinate has exited — and
a second `stop()` on the resulting state succeeds, returning the same
state without error (join-after-termination is a no-op). -/
theorem claim_C5_stop_idempotent (s : ViewSBFrontendProcess) (p : Proc)
    (h : s.foreground_process = Option.some p) :
    ∃ s' : ViewSBFrontendProcess,
      s.stop = Except.ok s' ∧
      s'.termination_event = true ∧
      s'.foreground_process = Option.some { p with exited := true } ∧
      s'.stop = Except.ok s' := by
  refine ⟨⟨s.input_queue, true, s.stdin_open, s.stdin_dup_count,
    s.frontend_arguments, Option.some { p with exited := true }⟩,
    ?_, rfl, rfl, rfl⟩
  unfold ViewSBFrontendProcess.stop
  simp [h]

/-- Claim C5, witness: for a concrete started supervisor, `stop` succeeds,
sets the flag, joins the subordinate, and a repeated `stop` is a no-op. -/
theorem claim_C5_witness :
    ((ViewSBFrontendProcess.init ⟨"TkFrontend"⟩ []).start.foreground_process
      = Option.some ⟨"TkFrontend UI process", ⟨⟨"TkFrontend"⟩, []⟩, true, false⟩) ∧
    ∃ s' : ViewSBFrontendProcess,
      (ViewSBFrontendProcess.init ⟨"TkFrontend"⟩ []).start.stop
        = Except.ok s' ∧
      s'.termination_event = true ∧
      s'.foreground_process = Option.some
        { (⟨"TkFrontend UI process", ⟨⟨"TkFrontend"⟩, []⟩, true, false⟩ : Proc)
          with exited := true } ∧
      s'.stop = Except.ok s' :=
  ⟨rfl, claim_C5_stop_idempotent
    (ViewSBFrontendProcess.init ⟨"TkFrontend"⟩ []).start
    ⟨"TkFrontend UI process", ⟨⟨"TkFrontend"⟩, []⟩, true, false⟩ rfl⟩

/-- Claim C6: `start()` on a fresh supervisor leaves the termination flag
cleared, spawns the subordinate named from the frontend class's
`__name__` with the stored argument tuple and a then-open stdin handle,
and closes the supervisor's local stdin copy, after which an I/O
operation on it is rejected with `ValueError`. -/
theorem claim_C6_start (fc : FrontendClass) (cargs : List PyValue) :
    ((ViewSBFrontendProcess.init fc cargs).start).termination_event = false ∧
    ((ViewSBFrontendProcess.init fc cargs).start).foreground_process
      = Option.some ⟨fc.name ++ " UI process",
          (ViewSBFrontendProcess.init fc cargs).frontend_arguments,
          true, false⟩ ∧
    ((ViewSBFrontendProcess.init fc cargs).start).stdin_open = false ∧
    ((ViewSBFrontendProcess.init fc cargs).start).stdin_read
      = Except.error PyError.valueError :=
  ⟨rfl, rfl, rfl, rfl⟩

/-- Claim C7: `read_packet(blocking, timeout)` — blocking with no timeout
on an empty channel waits indefinitely; blocking with timeout `t > 0` on
an empty channel signals the empty condition (and no other error) after
waiting at least `t`; non-blocking returns immediately (zero wait) with
the empty condition or the head item; a present item is always returned. -/
theorem claim_C7_read_packet (q : List PyValue) (p : PyValue) (t : Rat)
    (ht : 0 < t) :
    ViewSBFrontend.read_packet [] true Option.none = (GetResult.blocked, []) ∧
    (∃ w : Rat, ViewSBFrontend.read_packet [] true (Option.some t)
        = (GetResult.empty w, []) ∧ t ≤ w) ∧
    ViewSBFrontend.read_packet [] false (Option.some t)
      = (GetResult.empty 0, []) ∧
    ViewSBFrontend.read_packet (p :: q) false Option.none
      = (GetResult.item p, q) ∧
    ViewSBFrontend.read_packet (p :: q) true (Option.some t)
      = (GetResult.item p, q) :=
  ⟨rfl, ⟨max t 0, rfl, le_max_left t 0⟩, rfl, rfl, rfl⟩

/-- Claim C7, witness: read behavior at timeout 1 s and packet `obj 0`. -/
theorem claim_C7_witness :
    (0 : Rat) < 1 ∧
    (ViewSBFrontend.read_packet [] true Option.none
        = (GetResult.blocked, []) ∧
    (∃ w : Rat, ViewSBFrontend.read_packet [] true (Option.some 1)
        = (GetResult.empty w, []) ∧ (1 : Rat) ≤ w) ∧
    ViewSBFrontend.read_packet [] false (Option.some 1)
      = (GetResult.empty 0, []) ∧
    ViewSBFrontend.read_packet [PyValue.obj 0] false Option.none
      = (GetResult.item (PyValue.obj 0), []) ∧
    ViewSBFrontend.read_packet [PyValue.obj 0] true (Option.some 1)
      = (GetResult.item (PyValue.obj 0), [])) :=
  ⟨by norm_num, claim_C7_read_packet [] (PyValue.obj 0) 1 (by norm_num)⟩

theorem stopState_flag (s : ViewSBFrontendProcess) :
    s.stopState.termination_event = true := by
  unfold ViewSBFrontendProcess.stopState ViewSBFrontendProcess.stop
  cases s.foreground_process <;> simp

theorem applyOp_flag_mono (ops : List SupOp) : ∀ s : ViewSBFrontendProcess,
    SupOp.start ∉ ops → s.termination_event = true →
    (ops.foldl ViewSBFrontendProcess.applyOp s).termination_event = true := by
  induction ops with
  | nil =>
    intro s _ hs
    simpa using hs
  | cons op rest ih =>
    intro s hns hs
    rw [List.foldl_cons]
    refine ih _ (fun hmem => hns (List.mem_cons_of_mem _ hmem)) ?_
    cases op with
    | start => exact absurd (List.mem_cons_self _ _) hns
    | issue p => exact hs
    | stop => exact stopState_flag s

theorem applyOp_flag_foldl (ops : List SupOp) : ∀ s : ViewSBFrontendProcess,
    SupOp.start ∉ ops → s.termination_event = false →
    ((ops.foldl ViewSBFrontendProcess.applyOp s).termination_event = true
      ↔ SupOp.stop ∈ ops) := by
  induction ops with
  | nil =>
    intro s _ hs
    simp [hs]
  | cons op rest ih =>
    intro s hns hs
    rw [List.foldl_cons]
    cases op with
    | start => exact absurd (List.mem_cons_self _ _) hns
    | issue p =>
      have hflag : (ViewSBFrontendProcess.applyOp s
          (SupOp.issue p)).termination_event = false := hs
      rw [ih _ (fun hmem => hns (List.mem_cons_of_mem _ hmem)) hflag]
      simp
    | stop =>
      have hl : (rest.foldl ViewSBFrontendProcess.applyOp
          (ViewSBFrontendProcess.applyOp s SupOp.stop)).termination_event
            = true :=
        applyOp_flag_mono rest _
          (fun hmem => hns (List.mem_cons_of_mem _ hmem)) (stopState_flag s)
      simp [hl]

/-- Claim C8: the termination flag starts clear at construction;
`issue_packet` never modifies it; `stop` (even a failing one) sets it;
`start` clears it at the beginning of the new cycle; no operation other
than `start` ever clears a set flag; and across any operation sequence of
one lifecycle (no further `start`), the flag ends set exactly when a
`stop` occurred in the sequence. -/
theorem claim_C8_flag_invariant (fc : FrontendClass) (cargs : List PyValue)
    (ops : List SupOp) (h : SupOp.start ∉ ops) :
    (ViewSBFrontendProcess.init fc cargs).termination_event = false ∧
    (∀ s : ViewSBFrontendProcess, ∀ p : PyValue,
      (ViewSBFrontendProcess.applyOp s (SupOp.issue p)).termination_event
        = s.termination_event) ∧
    (∀ s : ViewSBFrontendProcess,
      (ViewSBFrontendProcess.applyOp s SupOp.stop).termination_event = true) ∧
    (∀ s : ViewSBFrontendProcess,
      (ViewSBFrontendProcess.applyOp s SupOp.start).termination_event
        = false) ∧
    (∀ s : ViewSBFrontendProcess, ∀ op : SupOp, op ≠ SupOp.start →
      s.termination_event = true →
      (ViewSBFrontendProcess.applyOp s op).termination_event = true) ∧
    ((ops.foldl ViewSBFrontendProcess.applyOp
        ((ViewSBFrontendProcess.init fc cargs).start)).termination_event
          = true
      ↔ SupOp.stop ∈ ops) := by
  refine ⟨rfl, fun s p => rfl, fun s => stopState_flag s, fun s => rfl,
    ?_, applyOp_flag_foldl ops _ h rfl⟩
  intro s op hop hs
  cases op with
  | start => exact absurd rfl hop
  | issue p => exact hs
  | stop => exact stopState_flag s

/-- Claim C8, witness: a lifecycle issuing one packet then stopping. -/
theorem claim_C8_witness :
    SupOp.start ∉ [SupOp.issue (PyValue.obj 7), SupOp.stop] ∧
    ((ViewSBFrontendProcess.init ⟨"TkFrontend"⟩ []).termination_event
        = false ∧
    (∀ s : ViewSBFrontendProcess, ∀ p : PyValue,
      (ViewSBFrontendProcess.applyOp s (SupOp.issue p)).termination_event
        = s.termination_event) ∧
    (∀ s : ViewSBFrontendProcess,
      (ViewSBFrontendProcess.applyOp s SupOp.stop).termination_event = true) ∧
    (∀ s : ViewSBFrontendProcess,
      (ViewSBFrontendProcess.applyOp s SupOp.start).termination_event
        = false) ∧
    (∀ s : ViewSBFrontendProcess, ∀ op : SupOp, op ≠ SupOp.start →
      s.termination_event = true →
      (ViewSBFrontendProcess.applyOp s op).termination_event = true) ∧
    (([SupOp.issue (PyValue.obj 7), SupOp.stop].foldl
        ViewSBFrontendProcess.applyOp
        ((ViewSBFrontendProcess.init ⟨"TkFrontend"⟩ []).start)).termination_event
          = true
      ↔ SupOp.stop ∈ [SupOp.issue (PyValue.obj 7), SupOp.stop])) :=
  ⟨by decide, claim_C8_flag_invariant ⟨"TkFrontend"⟩ []
    [SupOp.issue (PyValue.obj 7), SupOp.stop] (by decide)⟩

/-- Claim C9: the duplicated stdin handle is created exactly once, at
construction (`stdin_dup_count` stays 1 through two `start()` calls); the
first `start()` hands the subordinate a then-open handle and closes it;
a second `start()` on the same supervisor spawns its subordinate with the
same — by now closed — handle from the stored argument tuple. -/
theorem claim_C9_second_start (fc : FrontendClass) (cargs : List PyValue) :
    (ViewSBFrontendProcess.init fc cargs).stdin_dup_count = 1 ∧
    ((ViewSBFrontendProcess.init fc cargs).start).stdin_dup_count = 1 ∧
    ((ViewSBFrontendProcess.init fc cargs).start.start).stdin_dup_count = 1 ∧
    (∃ p1 : Proc,
      (ViewSBFrontendProcess.init fc cargs).start.foreground_process
        = Option.some p1 ∧ p1.stdin_open_at_spawn = true) ∧
    ((ViewSBFrontendProcess.init fc cargs).start).stdin_open = false ∧
    (∃ p2 : Proc,
      (ViewSBFrontendProcess.init fc cargs).start.start.foreground_process
        = Option.some p2 ∧ p2.stdin_open_at_spawn = false ∧
        p2.args = (ViewSBFrontendProcess.init fc cargs).frontend_arguments) :=
  ⟨rfl, rfl, rfl, ⟨_, rfl, rfl⟩, rfl, ⟨_, rfl, rfl, rfl⟩⟩

/-- Claim C10: `stop()` on a supervisor that was never started sets the
termination flag and then raises `AttributeError` (the
`foreground_process` attribute does not exist), leaving the flag set
despite the failure. -/
theorem claim_C10_stop_before_start (fc : FrontendClass)
    (cargs : List PyValue) :
    ∃ s' : ViewSBFrontendProcess,
      (ViewSBFrontendProcess.init fc cargs).stop
        = Except.error (PyError.attributeError, s') ∧
      s'.termination_event = true :=
  ⟨_, rfl, rfl⟩
